import Mathlib

/-!
# Artisan demo page: a model of `script.js`

The script is one `DOMContentLoaded` callback.  It looks up nine elements by id
(and two more, `username` and `password`, inside the submit listener),
registers a submit listener on the login form, click listeners on the process and
publish buttons, and renders six placeholder cards into the `.craft-grid` container.

The page is modelled as a record with one optional field per element the script
touches (`none` = `getElementById` / `querySelector` returned `null`).  Each element
carries exactly the properties the script reads or writes.  A listener body is a
function from the page to a `Run`: the page as the listener left it, the `alert`
texts it showed, what it wrote to the console, and the uncaught error if it threw.
A listener that throws keeps the writes it made before the throw.

Modelling assumptions (the markup is not part of the script):
* `username` and `password` are text inputs, `craftFileUpload` is a file input, so
  assigning `''` to its `value` empties its file list;
* none of the looked-up elements sits inside `.craft-grid`, so clearing the grid
  does not detach them; no listener adds or removes an element.
-/

namespace ArtisanDemo

/-! ## Data model -/

/-- A `File` of a file input: the script reads only `name`. -/
structure File where
  name : String
  type : String
  size : Nat
  deriving DecidableEq, Repr

/-- An element of which the script touches only `style.display`. -/
structure Panel where
  display : String
  deriving DecidableEq, Repr

/-- A text input: `value`. -/
structure TextInput where
  value : String
  deriving DecidableEq, Repr

/-- A file input: `files`. -/
structure FileInput where
  files : List File
  deriving DecidableEq, Repr

/-- An element of which the script touches only `textContent`. -/
structure TextElem where
  textContent : String
  deriving DecidableEq, Repr

/-- A button: `style.display` and `textContent`. -/
structure Button where
  display : String
  textContent : String
  deriving DecidableEq, Repr

/-- A child node of the grid container: its tag, class list and `innerHTML`. -/
structure Node where
  tag : String
  classList : List String
  innerHTML : String
  deriving DecidableEq, Repr

/-- The page: every element the script looks up, `none` when it is absent. -/
structure Page where
  artisanLoginForm : Option Panel
  username : Option TextInput
  password : Option TextInput
  uploadTool : Option Panel
  processCraftButton : Option Button
  craftFileUpload : Option FileInput
  generatedContent : Option Panel
  aiHeading : Option TextElem
  aiStory : Option TextElem
  aiTags : Option TextElem
  publishBlogButton : Option Button
  craftGrid : Option (List Node)
  deriving DecidableEq, Repr

/-- The result of running one callback. -/
structure Run where
  page : Page
  alerts : List String
  console : List (List File)
  error : Option String
  deriving DecidableEq, Repr

/-- Which listeners the `DOMContentLoaded` callback registered. -/
structure Listeners where
  loginSubmit : Bool
  processClick : Bool
  publishClick : Bool
  deriving DecidableEq, Repr

/-- A user event: a submit of the login form after typing the two fields, a click
on the process button after choosing files, a click on the publish button. -/
inductive Event where
  | loginSubmit (username password : String)
  | processClick (files : List File)
  | publishClick
  deriving DecidableEq, Repr

/-! ## Library behaviour the script relies on -/

/-- The loop of `Array.prototype.join`: `k` is the index of the next element, `r` the
string built so far; the separator is added before every element but the first. -/
def jsJoinFrom (sep : String) : Nat → String → List String → String
  | _, r, [] => r
  | k, r, x :: xs => jsJoinFrom sep (k + 1) ((if k > 0 then r ++ sep else r) ++ x) xs

/-- The method `Array.prototype.join(sep)` on an array of strings. -/
def jsJoin (sep : String) (xs : List String) : String :=
  jsJoinFrom sep 0 "" xs

/-- The message of the `TypeError` raised by a property access on `null`. -/
def nullError (prop : String) : String :=
  "TypeError: null has no property " ++ prop

/-! ## Constants of the script -/

def loginOkNotice : String := "Login successful! Welcome, Artisan!"

def loginBadNotice : String := "Invalid username or password."

def processingNotice : String := "Processing your craft with AI... (This is a simulation)"

def uploadFirstNotice : String := "Please upload some images or videos first!"

def publishedNotice : String := "Your blog post has been published successfully!"

def storyText : String :=
  "This piece, made with love and traditional techniques, showcases the intricate details and passion behind my work. Each element tells a story of heritage and dedication. I hope you enjoy its unique charm."

def tagsText : String := "#handmade #craftsmanship #artisan #unique #traditional #creative"

def craftImages : List String :=
  [ "images/craft1.jpg",
    "images/craft2.jpg",
    "images/craft3.jpg",
    "images/craft4.jpg",
    "images/craft5.jpg",
    "images/craft6.jpg" ]

/-! ## The submit listener of the login form (lines 14-29) -/

/-- The body of the submit listener.  `username` and `password` are looked up when the
listener runs and read without a presence check.  The listener is registered on the
form itself, so the branch with the form absent only makes the function total: it is
never reached through `registered`. -/
def loginSubmit (pg : Page) : Run :=
  match pg.username with
  | none => ⟨pg, [], [], some (nullError "value")⟩
  | some u =>
    match pg.password with
    | none => ⟨pg, [], [], some (nullError "value")⟩
    | some p =>
      if u.value = "artisan" ∧ p.value = "password123" then
        match pg.artisanLoginForm with
        | none => ⟨pg, [loginOkNotice], [], some (nullError "style")⟩
        | some form =>
          let pg1 := { pg with artisanLoginForm := some { form with display := "none" } }
          let pg2 :=
            match pg1.uploadTool with
            | some tool => { pg1 with uploadTool := some { tool with display := "block" } }
            | none => pg1
          let pg3 :=
            match pg2.generatedContent with
            | some gen => { pg2 with generatedContent := some { gen with display := "none" } }
            | none => pg2
          ⟨pg3, [loginOkNotice], [], none⟩
      else
        ⟨pg, [loginBadNotice], [], none⟩

/-! ## The click listener of the process button (lines 34-53) -/

/-- The body of the click listener of `processCraftButton`.  Only `generatedContent`
and the first use of `publishBlogButton` are guarded. -/
def processClick (pg : Page) : Run :=
  match pg.craftFileUpload with
  | none => ⟨pg, [], [], some (nullError "files")⟩
  | some upload =>
    if upload.files.length > 0 then
      let fileNames := jsJoin ", " (upload.files.map File.name)
      match pg.aiHeading with
      | none => ⟨pg, [processingNotice], [upload.files], some (nullError "textContent")⟩
      | some heading =>
        let pg1 := { pg with aiHeading := some { heading with
          textContent := "The Beauty of My Handcrafted Item (" ++ fileNames ++ ")" } }
        match pg1.aiStory with
        | none => ⟨pg1, [processingNotice], [upload.files], some (nullError "textContent")⟩
        | some story =>
          let pg2 := { pg1 with aiStory := some { story with textContent := storyText } }
          match pg2.aiTags with
          | none => ⟨pg2, [processingNotice], [upload.files], some (nullError "textContent")⟩
          | some tags =>
            let pg3 := { pg2 with aiTags := some { tags with textContent := tagsText } }
            let pg4 :=
              match pg3.generatedContent with
              | some gen => { pg3 with generatedContent := some { gen with display := "block" } }
              | none => pg3
            let pg5 :=
              match pg4.publishBlogButton with
              | some btn => { pg4 with publishBlogButton := some { btn with display := "block" } }
              | none => pg4
            match pg5.publishBlogButton with
            | none => ⟨pg5, [processingNotice], [upload.files], some (nullError "textContent")⟩
            | some btn =>
              ⟨{ pg5 with publishBlogButton := some { btn with textContent := "Publish Blog Post" } },
                [processingNotice], [upload.files], none⟩
    else
      ⟨pg, [uploadFirstNotice], [], none⟩

/-! ## The click listener of the publish button (lines 58-67) -/

/-- The body of the click listener of `publishBlogButton`: every write is guarded. -/
def publishClick (pg : Page) : Run :=
  let pg1 :=
    match pg.craftFileUpload with
    | some upload => { pg with craftFileUpload := some { upload with files := [] } }
    | none => pg
  let pg2 :=
    match pg1.aiHeading with
    | some heading => { pg1 with aiHeading := some { heading with textContent := "" } }
    | none => pg1
  let pg3 :=
    match pg2.aiStory with
    | some story => { pg2 with aiStory := some { story with textContent := "" } }
    | none => pg2
  let pg4 :=
    match pg3.aiTags with
    | some tags => { pg3 with aiTags := some { tags with textContent := "" } }
    | none => pg3
  let pg5 :=
    match pg4.generatedContent with
    | some gen => { pg4 with generatedContent := some { gen with display := "none" } }
    | none => pg4
  ⟨pg5, [publishedNotice], [], none⟩

/-! ## The gallery (lines 72-95) -/

/-- The card built for image path `src` at position `index` (counted from 0). -/
def craftItem (src : String) (index : Nat) : Node :=
  { tag := "div",
    classList := ["craft-item"],
    innerHTML :=
      "\n                <img src=\"" ++ src ++ "\" alt=\"Handmade Craft " ++ toString (index + 1) ++ "\">"
      ++ "\n                <h4>My Unique Creation " ++ toString (index + 1) ++ "</h4>"
      ++ "\n                <p>A beautiful example of handcrafted excellence, perfect for any home or collection.</p>"
      ++ "\n                <a href=\"#\" class=\"view-details\">View Details</a>"
      ++ "\n            " }

/-- The children of the grid after it was cleared and `forEach` appended one card per
image path. -/
def renderGrid : List Node :=
  craftImages.enum.foldl (fun children p => children ++ [craftItem p.2 p.1]) []

/-! ## The `DOMContentLoaded` callback (lines 1-96) -/

/-- Which listeners get registered: each one only when its own element is present. -/
def registered (pg : Page) : Listeners :=
  { loginSubmit := pg.artisanLoginForm.isSome,
    processClick := pg.processCraftButton.isSome,
    publishClick := pg.publishBlogButton.isSome }

/-- The effect of the callback on the page: the grid, when present, is re-rendered. -/
def domContentLoaded (pg : Page) : Run :=
  match pg.craftGrid with
  | some _ => ⟨{ pg with craftGrid := some renderGrid }, [], [], none⟩
  | none => ⟨pg, [], [], none⟩

/-! ## Events -/

/-- The user types the two credentials: each field that exists takes its new value. -/
def typeCredentials (pg : Page) (username password : String) : Page :=
  { pg with
    username := pg.username.map fun f => { f with value := username },
    password := pg.password.map fun f => { f with value := password } }

/-- The user picks `files` in the file input, when there is one. -/
def chooseFiles (pg : Page) (files : List File) : Page :=
  { pg with craftFileUpload := pg.craftFileUpload.map fun f => { f with files := files } }

/-- One event: the user input goes into the page, then the listener runs if it was
registered; an event without a listener runs no code. -/
def fire (ls : Listeners) (pg : Page) : Event → Run
  | Event.loginSubmit u p =>
    if ls.loginSubmit then loginSubmit (typeCredentials pg u p)
    else ⟨typeCredentials pg u p, [], [], none⟩
  | Event.processClick files =>
    if ls.processClick then processClick (chooseFiles pg files)
    else ⟨chooseFiles pg files, [], [], none⟩
  | Event.publishClick =>
    if ls.publishClick then publishClick pg else ⟨pg, [], [], none⟩

/-- A finite sequence of events, one after the other; a listener that throws leaves
the page as it was at the throw and the next event goes on from there. -/
def runEvents (ls : Listeners) (pg : Page) : List Event → Page
  | [] => pg
  | e :: es => runEvents ls (fire ls pg e).page es

/-- The upload panel is shown: its inline `display` is `block`. -/
def uploadVisible (pg : Page) : Prop :=
  pg.uploadTool.map Panel.display = some "block"

instance (pg : Page) : Decidable (uploadVisible pg) := by
  unfold uploadVisible; infer_instance

/-! ## Compound runs and sample pages -/

/-- All twelve looked-up elements are present. -/
def allPresent (pg : Page) : Bool :=
  pg.artisanLoginForm.isSome && pg.username.isSome && pg.password.isSome
    && pg.uploadTool.isSome && pg.processCraftButton.isSome && pg.craftFileUpload.isSome
    && pg.generatedContent.isSome && pg.aiHeading.isSome && pg.aiStory.isSome
    && pg.aiTags.isSome && pg.publishBlogButton.isSome && pg.craftGrid.isSome

/-- A process click followed by a publish click. -/
def processThenPublish (pg : Page) : Run :=
  publishClick (processClick pg).page

/-- A page with every element, as the markup would deliver it: both panels hidden,
empty fields, no file chosen, one static example in the grid. -/
def freshPage : Page :=
  { artisanLoginForm := some ⟨""⟩,
    username := some ⟨""⟩,
    password := some ⟨""⟩,
    uploadTool := some ⟨"none"⟩,
    processCraftButton := some ⟨"", "Generate Blog Post"⟩,
    craftFileUpload := some ⟨[]⟩,
    generatedContent := some ⟨"none"⟩,
    aiHeading := some ⟨""⟩,
    aiStory := some ⟨""⟩,
    aiTags := some ⟨""⟩,
    publishBlogButton := some ⟨"none", "Publishing..."⟩,
    craftGrid := some [⟨"div", ["craft-item"], "<p>static example</p>"⟩] }

/-- Two chosen files. -/
def twoFiles : List File :=
  [⟨"a.jpg", "image/jpeg", 2048⟩, ⟨"b.png", "image/png", 0⟩]

/-- The page after a process click on `a.jpg` and a later emptied file selection: the
output panel is shown and no file is chosen. -/
def shownPage : Page :=
  { artisanLoginForm := some ⟨""⟩,
    username := some ⟨""⟩,
    password := some ⟨""⟩,
    uploadTool := some ⟨"none"⟩,
    processCraftButton := some ⟨"", "Generate Blog Post"⟩,
    craftFileUpload := some ⟨[]⟩,
    generatedContent := some ⟨"block"⟩,
    aiHeading := some ⟨"The Beauty of My Handcrafted Item (a.jpg)"⟩,
    aiStory := some ⟨storyText⟩,
    aiTags := some ⟨tagsText⟩,
    publishBlogButton := some ⟨"block", "Publish Blog Post"⟩,
    craftGrid := some [⟨"div", ["craft-item"], "<p>static example</p>"⟩] }

/-- A page that has none of the looked-up elements. -/
def emptyPage : Page :=
  { artisanLoginForm := none, username := none, password := none, uploadTool := none,
    processCraftButton := none, craftFileUpload := none, generatedContent := none,
    aiHeading := none, aiStory := none, aiTags := none, publishBlogButton := none,
    craftGrid := none }

/-- A page whose only looked-up element is the process button. -/
def processButtonOnly : Page :=
  { emptyPage with processCraftButton := some ⟨"", "Generate Blog Post"⟩ }

/-- A page whose only looked-up element is the login form. -/
def loginFormOnly : Page :=
  { emptyPage with artisanLoginForm := some ⟨""⟩ }

/-- The full page without the publish button. -/
def noPublishButton : Page :=
  { freshPage with publishBlogButton := none }

/-! ## Helper lemmas -/

/-- Past the first element the join loop is the accumulator loop of `String.intercalate`. -/
theorem jsJoinFrom_succ (sep : String) (k : Nat) (r : String) (xs : List String) :
    jsJoinFrom sep (k + 1) r xs = String.intercalate.go r sep xs := by
  induction xs generalizing k r with
  | nil => simp [jsJoinFrom, String.intercalate.go]
  | cons x xs ih => simp [jsJoinFrom, String.intercalate.go, ih]

/-- The method `join` on strings is `String.intercalate`. -/
theorem jsJoin_eq_intercalate (sep : String) (xs : List String) :
    jsJoin sep xs = sep.intercalate xs := by
  cases xs with
  | nil => simp [jsJoin, jsJoinFrom, String.intercalate]
  | cons x xs => simp [jsJoin, jsJoinFrom, String.intercalate, jsJoinFrom_succ]

/-! ## Login -/

/-- C1: when the login form, the upload panel and the generated-content panel are
present and the two fields hold exactly `artisan` and `password123`, the submit
listener ends without error, shows the success notice, and leaves the login form with
display `none`, the upload panel with display `block` and the generated-content panel
with display `none`. -/
theorem loginSubmit_success (pg : Page) (form tool gen : Panel)
    (hform : pg.artisanLoginForm = some form) (htool : pg.uploadTool = some tool)
    (hgen : pg.generatedContent = some gen)
    (huser : pg.username = some ⟨"artisan"⟩) (hpass : pg.password = some ⟨"password123"⟩) :
    (loginSubmit pg).page.artisanLoginForm.map Panel.display = some "none"
      ∧ (loginSubmit pg).page.uploadTool.map Panel.display = some "block"
      ∧ (loginSubmit pg).page.generatedContent.map Panel.display = some "none"
      ∧ (loginSubmit pg).alerts = ["Login successful! Welcome, Artisan!"]
      ∧ (loginSubmit pg).error = none := by
  simp [loginSubmit, hform, htool, hgen, huser, hpass, loginOkNotice]

/-- The success branch on the fresh page after typing the accepted pair. -/
theorem loginSubmit_success_witness :
    (loginSubmit (typeCredentials freshPage "artisan" "password123")).page.artisanLoginForm.map
        Panel.display = some "none"
      ∧ (loginSubmit (typeCredentials freshPage "artisan" "password123")).page.uploadTool.map
        Panel.display = some "block"
      ∧ (loginSubmit (typeCredentials freshPage "artisan" "password123")).page.generatedContent.map
        Panel.display = some "none"
      ∧ (loginSubmit (typeCredentials freshPage "artisan" "password123")).alerts
        = ["Login successful! Welcome, Artisan!"]
      ∧ (loginSubmit (typeCredentials freshPage "artisan" "password123")).error = none :=
  loginSubmit_success (typeCredentials freshPage "artisan" "password123")
    ⟨""⟩ ⟨"none"⟩ ⟨"none"⟩ rfl rfl rfl rfl rfl

/-- C2: when the two fields hold any pair other than exactly (`artisan`,
`password123`), the submit listener ends without error, shows the failure notice and
returns the page it was given: every visibility and both field values are as before. -/
theorem loginSubmit_failure (pg : Page) (u p : String)
    (huser : pg.username = some ⟨u⟩) (hpass : pg.password = some ⟨p⟩)
    (hne : ¬ (u = "artisan" ∧ p = "password123")) :
    (loginSubmit pg).alerts = ["Invalid username or password."]
      ∧ (loginSubmit pg).page = pg
      ∧ (loginSubmit pg).error = none := by
  simp [loginSubmit, huser, hpass, hne, loginBadNotice]

/-- The failure branch on the fresh page: wrong letter case and a leading blank. -/
theorem loginSubmit_failure_witness :
    (loginSubmit (typeCredentials freshPage "Artisan" " password123")).alerts
        = ["Invalid username or password."]
      ∧ (loginSubmit (typeCredentials freshPage "Artisan" " password123")).page
        = typeCredentials freshPage "Artisan" " password123"
      ∧ (loginSubmit (typeCredentials freshPage "Artisan" " password123")).error = none :=
  loginSubmit_failure (typeCredentials freshPage "Artisan" " password123")
    "Artisan" " password123" rfl rfl (by decide)

/-! ## Process -/

/-- The three texts a process click writes when the output elements are present. -/
theorem processClick_texts (pg : Page) (up : FileInput)
    (hup : pg.craftFileUpload = some up) (hne : up.files ≠ [])
    (hh : pg.aiHeading.isSome) (hs : pg.aiStory.isSome) (ht : pg.aiTags.isSome) :
    (processClick pg).page.aiHeading
        = some ⟨"The Beauty of My Handcrafted Item ("
            ++ jsJoin ", " (up.files.map File.name) ++ ")"⟩
      ∧ (processClick pg).page.aiStory = some ⟨storyText⟩
      ∧ (processClick pg).page.aiTags = some ⟨tagsText⟩ := by
  have hlen : 0 < up.files.length := List.length_pos.mpr hne
  obtain ⟨h, hh⟩ := Option.isSome_iff_exists.mp hh
  obtain ⟨s, hs⟩ := Option.isSome_iff_exists.mp hs
  obtain ⟨t, ht⟩ := Option.isSome_iff_exists.mp ht
  cases hg : pg.generatedContent <;> cases hb : pg.publishBlogButton <;>
    simp [processClick, hup, hlen, hh, hs, ht, hg, hb]

/-- C3: with a non-empty file selection and the three output elements present, the
click listener of the process button writes the heading template around the file
names joined by `, ` in selection order, the fixed story and the fixed tag line; for
the names `a.jpg`, `b.png` the heading is the literal of the specification; and any
other run whose selection has the same names writes the same three texts. -/
theorem processClick_output (pg : Page) (up : FileInput)
    (hup : pg.craftFileUpload = some up) (hne : up.files ≠ [])
    (hh : pg.aiHeading.isSome) (hs : pg.aiStory.isSome) (ht : pg.aiTags.isSome) :
    (processClick pg).page.aiHeading
        = some ⟨"The Beauty of My Handcrafted Item ("
            ++ ", ".intercalate (up.files.map File.name) ++ ")"⟩
      ∧ (processClick pg).page.aiStory
        = some ⟨"This piece, made with love and traditional techniques, showcases the intricate details and passion behind my work. Each element tells a story of heritage and dedication. I hope you enjoy its unique charm."⟩
      ∧ (processClick pg).page.aiTags
        = some ⟨"#handmade #craftsmanship #artisan #unique #traditional #creative"⟩
      ∧ (up.files.map File.name = ["a.jpg", "b.png"] →
          (processClick pg).page.aiHeading
            = some ⟨"The Beauty of My Handcrafted Item (a.jpg, b.png)"⟩)
      ∧ (∀ (pg2 : Page) (up2 : FileInput), pg2.craftFileUpload = some up2 →
          pg2.aiHeading.isSome → pg2.aiStory.isSome → pg2.aiTags.isSome →
          up2.files.map File.name = up.files.map File.name →
          (processClick pg2).page.aiHeading = (processClick pg).page.aiHeading
            ∧ (processClick pg2).page.aiStory = (processClick pg).page.aiStory
            ∧ (processClick pg2).page.aiTags = (processClick pg).page.aiTags) := by
  have key := processClick_texts pg up hup hne hh hs ht
  refine ⟨?_, ?_, ?_, ?_, ?_⟩
  · rw [key.1, jsJoin_eq_intercalate]
  · rw [key.2.1]; rfl
  · rw [key.2.2]; rfl
  · intro hnames
    rw [key.1, hnames]; rfl
  · intro pg2 up2 hup2 hh2 hs2 ht2 hnames
    have hne2 : up2.files ≠ [] := by
      intro h0
      apply hne
      have : (up.files.map File.name) = [] := by rw [← hnames, h0]; rfl
      simpa using this
    have key2 := processClick_texts pg2 up2 hup2 hne2 hh2 hs2 ht2
    rw [key.1, key.2.1, key.2.2, key2.1, key2.2.1, key2.2.2, hnames]
    exact ⟨rfl, rfl, rfl⟩

/-- The heading for the selection `a.jpg`, `b.png` on the fresh page. -/
theorem processClick_output_witness :
    (processClick (chooseFiles freshPage twoFiles)).page.aiHeading
      = some ⟨"The Beauty of My Handcrafted Item (a.jpg, b.png)"⟩ :=
  (processClick_output (chooseFiles freshPage twoFiles) ⟨twoFiles⟩ rfl (by decide)
    rfl rfl rfl).2.2.2.1 rfl

/-- C4, as stated, fails: `shownPage` is the page reached from `freshPage` by a
process click on `a.jpg` followed by emptying the file selection; its file selection
has size 0, and after a further process click the output panel has display `block`,
not `none`. -/
theorem processClick_empty_panel_not_hidden :
    shownPage
        = chooseFiles (processClick (chooseFiles freshPage [⟨"a.jpg", "image/jpeg", 7⟩])).page []
      ∧ shownPage.craftFileUpload.map (fun f => f.files.length) = some 0
      ∧ (processClick shownPage).page.generatedContent.map Panel.display = some "block"
      ∧ (processClick shownPage).page.generatedContent.map Panel.display ≠ some "none" := by
  refine ⟨rfl, rfl, rfl, ?_⟩
  decide

/-- C4, amended: with a file selection of size 0 the click listener of the process
button ends without error, shows the please-upload notice and returns the page it
was given: heading, story and tags are as before, the output panel keeps the display
it had, so it is hidden after the click whenever it was hidden before. -/
theorem processClick_empty (pg : Page) (up : FileInput)
    (hup : pg.craftFileUpload = some up) (hempty : up.files.length = 0) :
    (processClick pg).alerts = ["Please upload some images or videos first!"]
      ∧ (processClick pg).page.aiHeading = pg.aiHeading
      ∧ (processClick pg).page.aiStory = pg.aiStory
      ∧ (processClick pg).page.aiTags = pg.aiTags
      ∧ (processClick pg).page.generatedContent = pg.generatedContent
      ∧ (pg.generatedContent.map Panel.display = some "none" →
          (processClick pg).page.generatedContent.map Panel.display = some "none")
      ∧ (processClick pg).page = pg
      ∧ (processClick pg).error = none := by
  simp [processClick, hup, hempty, uploadFirstNotice]

/-- The empty branch on the fresh page, where the output panel starts hidden. -/
theorem processClick_empty_witness :
    (processClick freshPage).alerts = ["Please upload some images or videos first!"]
      ∧ (processClick freshPage).page.generatedContent.map Panel.display = some "none"
      ∧ (processClick freshPage).page = freshPage :=
  have h := processClick_empty freshPage ⟨[]⟩ rfl rfl
  ⟨h.1, h.2.2.2.2.2.1 rfl, h.2.2.2.2.2.2.1⟩

/-- The whole result of a process click when every element is present. -/
theorem processClick_all (pg : Page) (up : FileInput)
    (hall : allPresent pg = true) (hup : pg.craftFileUpload = some up)
    (hne : up.files ≠ []) :
    ∃ (h s t : TextElem) (g : Panel) (b : Button),
      pg.aiHeading = some h ∧ pg.aiStory = some s ∧ pg.aiTags = some t
        ∧ pg.generatedContent = some g ∧ pg.publishBlogButton = some b
        ∧ processClick pg =
          ⟨{ pg with
              aiHeading := some ⟨"The Beauty of My Handcrafted Item ("
                ++ jsJoin ", " (up.files.map File.name) ++ ")"⟩,
              aiStory := some ⟨storyText⟩,
              aiTags := some ⟨tagsText⟩,
              generatedContent := some ⟨"block"⟩,
              publishBlogButton := some ⟨"block", "Publish Blog Post"⟩ },
            [processingNotice], [up.files], none⟩ := by
  have hlen : 0 < up.files.length := List.length_pos.mpr hne
  simp only [allPresent, Bool.and_eq_true] at hall
  obtain ⟨⟨⟨⟨⟨⟨⟨⟨⟨⟨⟨_, _⟩, _⟩, _⟩, _⟩, _⟩, hg⟩, hh⟩, hs⟩, ht⟩, hb⟩, _⟩ := hall
  obtain ⟨h, hh⟩ := Option.isSome_iff_exists.mp hh
  obtain ⟨s, hs⟩ := Option.isSome_iff_exists.mp hs
  obtain ⟨t, ht⟩ := Option.isSome_iff_exists.mp ht
  obtain ⟨g, hg⟩ := Option.isSome_iff_exists.mp hg
  obtain ⟨b, hb⟩ := Option.isSome_iff_exists.mp hb
  refine ⟨h, s, t, g, b, hh, hs, ht, hg, hb, ?_⟩
  simp [processClick, hup, hlen, hh, hs, ht, hg, hb]

/-- C5: with every element present and a non-empty file selection, a process click
followed by a publish click both end without error and leave heading, story and tags
with the empty string, the file selection empty and the output panel with display
`none`. -/
theorem processThenPublish_clears (pg : Page) (up : FileInput)
    (hall : allPresent pg = true) (hup : pg.craftFileUpload = some up)
    (hne : up.files ≠ []) :
    (processThenPublish pg).page.aiHeading.map TextElem.textContent = some ""
      ∧ (processThenPublish pg).page.aiStory.map TextElem.textContent = some ""
      ∧ (processThenPublish pg).page.aiTags.map TextElem.textContent = some ""
      ∧ (processThenPublish pg).page.craftFileUpload.map FileInput.files = some []
      ∧ (processThenPublish pg).page.generatedContent.map Panel.display = some "none"
      ∧ (processClick pg).error = none
      ∧ (processThenPublish pg).error = none := by
  obtain ⟨h, s, t, g, b, hh, hs, ht, hg, hb, hrun⟩ := processClick_all pg up hall hup hne
  simp [processThenPublish, hrun, publishClick, hup]

/-- Process then publish on the fresh page with two files chosen. -/
theorem processThenPublish_clears_witness :
    (processThenPublish (chooseFiles freshPage twoFiles)).page.aiHeading.map
        TextElem.textContent = some ""
      ∧ (processThenPublish (chooseFiles freshPage twoFiles)).page.craftFileUpload.map
        FileInput.files = some []
      ∧ (processThenPublish (chooseFiles freshPage twoFiles)).page.generatedContent.map
        Panel.display = some "none" :=
  have h := processThenPublish_clears (chooseFiles freshPage twoFiles) ⟨twoFiles⟩
    rfl rfl (by decide)
  ⟨h.1, h.2.2.2.1, h.2.2.2.2.1⟩

/-- C9: with every element present and a non-empty file selection, whatever the
displays and the publish label were before, the click listener of the process button
ends without error and leaves the output panel with display `block` and the publish
button with display `block` and label `Publish Blog Post`. -/
theorem processClick_reveals (pg : Page) (up : FileInput)
    (hall : allPresent pg = true) (hup : pg.craftFileUpload = some up)
    (hne : up.files ≠ []) :
    (processClick pg).page.generatedContent.map Panel.display = some "block"
      ∧ (processClick pg).page.publishBlogButton.map Button.display = some "block"
      ∧ (processClick pg).page.publishBlogButton.map Button.textContent
        = some "Publish Blog Post"
      ∧ (processClick pg).error = none := by
  obtain ⟨h, s, t, g, b, hh, hs, ht, hg, hb, hrun⟩ := processClick_all pg up hall hup hne
  simp [hrun]

/-- A process click on the fresh page, whose publish button starts hidden with another label. -/
theorem processClick_reveals_witness :
    (processClick (chooseFiles freshPage twoFiles)).page.generatedContent.map Panel.display
        = some "block"
      ∧ (processClick (chooseFiles freshPage twoFiles)).page.publishBlogButton
        = some ⟨"block", "Publish Blog Post"⟩ :=
  have h := processClick_reveals (chooseFiles freshPage twoFiles) ⟨twoFiles⟩
    rfl rfl (by decide)
  ⟨h.1, rfl⟩

/-! ## Publish -/

/-- C8: for every page, a second publish click right after a first one returns the
page the first one left, shows the same notice as the first, and neither throws. -/
theorem publishClick_idempotent (pg : Page) :
    (publishClick (publishClick pg).page).page = (publishClick pg).page
      ∧ (publishClick (publishClick pg).page).alerts = (publishClick pg).alerts
      ∧ (publishClick pg).alerts = ["Your blog post has been published successfully!"]
      ∧ publishClick (publishClick pg).page = publishClick pg
      ∧ (publishClick pg).error = none := by
  obtain ⟨f1, f2, f3, f4, f5, up, g, h, s, t, b, grid⟩ := pg
  cases up <;> cases g <;> cases h <;> cases s <;> cases t <;>
    simp [publishClick, publishedNotice]

/-! ## Gallery -/

/-- C6: whatever the grid held before, after the `DOMContentLoaded` callback (which
ends without error) the grid holds exactly six children, each a `div` of class
`craft-item`; for N = 1..6 the N-th one has the markup with image path
`images/craftN.jpg`, caption `My Unique Creation N`, the fixed description and a
`View Details` link to `#`; running the callback again leaves the same grid. -/
theorem gallery_render (pg : Page) (old : List Node) (hgrid : pg.craftGrid = some old) :
    ∃ cards : List Node,
      (domContentLoaded pg).page.craftGrid = some cards
        ∧ cards.length = 6
        ∧ (∀ N : Nat, 1 ≤ N → N ≤ 6 →
            cards[N - 1]? = some ⟨"div", ["craft-item"],
              "\n                <img src=\"images/craft" ++ toString N
                ++ ".jpg\" alt=\"Handmade Craft " ++ toString N ++ "\">"
                ++ "\n                <h4>My Unique Creation " ++ toString N ++ "</h4>"
                ++ "\n                <p>A beautiful example of handcrafted excellence, perfect for any home or collection.</p>"
                ++ "\n                <a href=\"#\" class=\"view-details\">View Details</a>"
                ++ "\n            "⟩)
        ∧ (domContentLoaded (domContentLoaded pg).page).page.craftGrid
            = (domContentLoaded pg).page.craftGrid
        ∧ (domContentLoaded pg).error = none := by
  refine ⟨renderGrid, ?_, rfl, ?_, ?_, ?_⟩
  · simp [domContentLoaded, hgrid]
  · intro N h1 h6
    interval_cases N <;> rfl
  · simp [domContentLoaded, hgrid]
  · simp [domContentLoaded, hgrid]

/-- The third card rendered on the fresh page, whose grid held one static example. -/
theorem gallery_render_witness :
    ∃ cards : List Node,
      (domContentLoaded freshPage).page.craftGrid = some cards
        ∧ cards.length = 6
        ∧ cards[2]? = some ⟨"div", ["craft-item"],
              "\n                <img src=\"images/craft3.jpg\" alt=\"Handmade Craft 3\">"
                ++ "\n                <h4>My Unique Creation 3</h4>"
                ++ "\n                <p>A beautiful example of handcrafted excellence, perfect for any home or collection.</p>"
                ++ "\n                <a href=\"#\" class=\"view-details\">View Details</a>"
                ++ "\n            "⟩ :=
  match gallery_render freshPage [⟨"div", ["craft-item"], "<p>static example</p>"⟩] rfl with
  | ⟨cards, h1, h2, h3, _, _⟩ => ⟨cards, h1, h2, h3 3 (by decide) (by decide)⟩

/-! ## Absent elements -/

/-- C7 fails on the code: on a page whose only element is the process button the click
listener is registered and throws on `craftFileUpload.files`; on a page whose only
element is the login form the submit listener is registered and throws on the
`value` of the missing username field; on the full page without the publish button
the process listener throws on `publishBlogButton.textContent` after its writes. -/
theorem listeners_throw_on_absent_elements :
    (registered processButtonOnly).processClick = true
      ∧ (fire (registered processButtonOnly) (domContentLoaded processButtonOnly).page
          (Event.processClick [])).error = some (nullError "files")
      ∧ (registered loginFormOnly).loginSubmit = true
      ∧ (fire (registered loginFormOnly) (domContentLoaded loginFormOnly).page
          (Event.loginSubmit "artisan" "password123")).error = some (nullError "value")
      ∧ (registered noPublishButton).processClick = true
      ∧ (fire (registered noPublishButton) (domContentLoaded noPublishButton).page
          (Event.processClick twoFiles)).error = some (nullError "textContent")
      ∧ (fire (registered noPublishButton) (domContentLoaded noPublishButton).page
          (Event.processClick twoFiles)).page.generatedContent = some ⟨"block"⟩ := by
  refine ⟨rfl, rfl, rfl, rfl, rfl, rfl, rfl⟩

/-! ## The login gate -/

/-- The submit listener leaves the upload panel alone unless the accepted pair was typed. -/
theorem loginSubmit_uploadTool (pg : Page) :
    (loginSubmit pg).page.uploadTool = pg.uploadTool
      ∨ ((pg.username = some ⟨"artisan"⟩ ∧ pg.password = some ⟨"password123"⟩)
          ∧ (loginSubmit pg).page.uploadTool.map Panel.display = some "block") := by
  obtain ⟨form, u, p, tool, f5, up, g, h, s, t, b, grid⟩ := pg
  rcases u with _ | ⟨⟨u⟩⟩ <;> rcases p with _ | ⟨⟨p⟩⟩ <;> try simp [loginSubmit]
  by_cases hc : u = "artisan" ∧ p = "password123"
  · obtain ⟨rfl, rfl⟩ := hc
    cases form <;> cases tool <;> cases g <;> simp [loginSubmit]
  · simp [loginSubmit, hc]

/-- The process listener never writes the upload panel. -/
theorem processClick_uploadTool (pg : Page) :
    (processClick pg).page.uploadTool = pg.uploadTool := by
  obtain ⟨form, u, p, tool, f5, up, g, h, s, t, b, grid⟩ := pg
  rcases up with _ | ⟨⟨files⟩⟩
  · simp [processClick]
  · by_cases hlen : 0 < files.length
    · cases g <;> cases h <;> cases s <;> cases t <;> cases b <;>
        simp [processClick, hlen]
    · simp [processClick, hlen]

/-- The publish listener never writes the upload panel. -/
theorem publishClick_uploadTool (pg : Page) :
    (publishClick pg).page.uploadTool = pg.uploadTool := by
  obtain ⟨form, u, p, tool, f5, up, g, h, s, t, b, grid⟩ := pg
  cases up <;> cases g <;> cases h <;> cases s <;> cases t <;> simp [publishClick]

/-- One event leaves the upload panel alone unless it is the accepted login. -/
theorem fire_uploadTool (ls : Listeners) (pg : Page) (e : Event) :
    (fire ls pg e).page.uploadTool = pg.uploadTool
      ∨ (e = Event.loginSubmit "artisan" "password123"
          ∧ (fire ls pg e).page.uploadTool.map Panel.display = some "block") := by
  cases e with
  | loginSubmit u p =>
    by_cases hl : ls.loginSubmit = true
    · rcases loginSubmit_uploadTool (typeCredentials pg u p) with h | ⟨⟨hu, hp⟩, hb⟩
      · left; simpa [fire, hl, typeCredentials] using h
      · right
        refine ⟨?_, by simpa [fire, hl] using hb⟩
        cases hpu : pg.username <;> cases hpp : pg.password <;>
          simp [typeCredentials, hpu, hpp] at hu hp
        rw [hu, hp]
    · left; simp [fire, hl, typeCredentials]
  | processClick files =>
    left
    by_cases hl : ls.processClick = true
    · simp [fire, hl, processClick_uploadTool, chooseFiles]
    · simp [fire, hl, chooseFiles]
  | publishClick =>
    left
    by_cases hl : ls.publishClick = true
    · simp [fire, hl, publishClick_uploadTool]
    · simp [fire, hl]

/-- A sequence of events leaves the upload panel alone unless it holds the accepted login. -/
theorem runEvents_uploadTool (ls : Listeners) (pg : Page) (evs : List Event) :
    (runEvents ls pg evs).uploadTool = pg.uploadTool
      ∨ (Event.loginSubmit "artisan" "password123" ∈ evs
          ∧ (runEvents ls pg evs).uploadTool.map Panel.display = some "block") := by
  induction evs generalizing pg with
  | nil => left; rfl
  | cons e es ih =>
    rcases ih (fire ls pg e).page with h | ⟨hmem, hb⟩
    · rcases fire_uploadTool ls pg e with h1 | ⟨he, hb1⟩
      · left; simp [runEvents, h, h1]
      · right
        refine ⟨by simp [he], ?_⟩
        simp only [runEvents]
        rw [h]; exact hb1
    · right
      exact ⟨List.mem_cons_of_mem _ hmem, by simpa [runEvents] using hb⟩

/-- C10: for every set of registered listeners, every page and every finite sequence
of events: if the upload panel is not shown at the start and is shown at the end, the
sequence contains a login submit carrying exactly (`artisan`, `password123`); if it
is shown at the start it is shown at the end; and a sequence without such a submit
leaves the upload panel exactly as it was. -/
theorem login_gate (ls : Listeners) (pg : Page) (evs : List Event) :
    (¬ uploadVisible pg → uploadVisible (runEvents ls pg evs) →
        Event.loginSubmit "artisan" "password123" ∈ evs)
      ∧ (uploadVisible pg → uploadVisible (runEvents ls pg evs))
      ∧ (Event.loginSubmit "artisan" "password123" ∉ evs →
          (runEvents ls pg evs).uploadTool = pg.uploadTool) := by
  rcases runEvents_uploadTool ls pg evs with h | ⟨hmem, hb⟩
  · refine ⟨?_, ?_, fun _ => h⟩
    · intro h0 h1
      exact absurd (by simpa [uploadVisible, h] using h1) h0
    · intro h0
      simpa [uploadVisible, h] using h0
  · exact ⟨fun _ _ => hmem, fun _ => hb, fun hnot => absurd hmem hnot⟩

/-- A run from the fresh page that ends with the upload panel shown. -/
theorem login_gate_witness :
    Event.loginSubmit "artisan" "password123"
      ∈ [Event.processClick twoFiles, Event.loginSubmit "artisan" "Password123",
          Event.loginSubmit "artisan" "password123", Event.publishClick] :=
  (login_gate (registered freshPage) freshPage
    [Event.processClick twoFiles, Event.loginSubmit "artisan" "Password123",
      Event.loginSubmit "artisan" "password123", Event.publishClick]).1
    (by decide) (by decide)

end ArtisanDemo
